import Mathlib

/-!
Shallow embedding of the furniture-hub backend's order–payment core:
the order model (`src/unnamed/part_004`), the product stock methods
(`src/unnamed/part_002`), the order controller
(`src/src/controllers/orderController.js`), the payment controller
(`src/src/controllers/paymentController.js`) and the M-Pesa service
(`src/unnamed/part_000`).  JavaScript numbers that hold money or stock
are modelled as `Int`; timestamps (`new Date()`) as an explicit `Nat`
parameter threaded through every mutating operation; `undefined` as
`Option`; thrown errors as `Except`.  External I/O outcomes (axios
responses) are passed in as explicit parameters.
-/

namespace FurnitureHub

/-- Fulfillment status enum of the order schema. -/
inductive OrderStatus
  | pending
  | confirmed
  | processing
  | shipped
  | delivered
  | cancelled
deriving DecidableEq, Repr

/-- Payment status enum of the order schema. -/
inductive PaymentStatus
  | pending
  | paid
  | failed
  | refunded
deriving DecidableEq, Repr

/-- String form of a fulfillment status, as interpolated into default notes. -/
def OrderStatus.label : OrderStatus → String
  | .pending => "pending"
  | .confirmed => "confirmed"
  | .processing => "processing"
  | .shipped => "shipped"
  | .delivered => "delivered"
  | .cancelled => "cancelled"

/-- The `paymentDetails` sub-document of the order schema.  `failureReason` is the
extra property the callback controller writes onto the sub-document. -/
structure PaymentDetails where
  mpesaReceiptNumber : Option String
  transactionId : Option String
  phoneNumber : Option String
  paidAt : Option Nat
  failureReason : Option String
deriving DecidableEq, Repr

/-- The object literal passed to `markAsPaid` by its callers: it always carries
exactly the keys `mpesaReceiptNumber`, `transactionId`, `phoneNumber`
(each possibly `undefined`). -/
structure PaymentPatch where
  mpesaReceiptNumber : Option String
  transactionId : Option String
  phoneNumber : Option String
deriving DecidableEq, Repr

/-- Model of the JS spread merge performed by `markAsPaid`:
keys present in the patch object overwrite (even with `undefined` values),
keys absent from it (`failureReason`) are kept, `paidAt` is set last. -/
def PaymentDetails.applyPatch (old : PaymentDetails) (p : PaymentPatch)
    (now : Nat) : PaymentDetails :=
  { mpesaReceiptNumber := p.mpesaReceiptNumber
    transactionId := p.transactionId
    phoneNumber := p.phoneNumber
    paidAt := some now
    failureReason := old.failureReason }

/-- One `statusHistory` entry. -/
structure HistoryEntry where
  status : OrderStatus
  timestamp : Nat
  note : String
  updatedBy : Option String
deriving DecidableEq, Repr

/-- One order line item (snapshot of the product at creation time). -/
structure OrderItem where
  product : Nat
  name : String
  price : Int
  quantity : Int
  image : String
deriving DecidableEq, Repr

/-- The order document (fields the core reads or writes). -/
structure Order where
  id : Nat
  orderNumber : String
  user : String
  items : List OrderItem
  subtotal : Int
  deliveryFee : Int
  total : Int
  paymentMethod : String
  paymentStatus : PaymentStatus
  paymentDetails : PaymentDetails
  orderStatus : OrderStatus
  statusHistory : List HistoryEntry
  cancelReason : Option String
  notes : Option String
deriving DecidableEq, Repr

/-- The virtual `canBeCancelled`: whether `orderStatus` is `pending` or `confirmed`. -/
def Order.canBeCancelled (o : Order) : Bool :=
  match o.orderStatus with
  | .pending => true
  | .confirmed => true
  | _ => false

/-- The virtual `isCompleted`: whether `orderStatus` is `delivered`. -/
def Order.isCompleted (o : Order) : Bool :=
  match o.orderStatus with
  | .delivered => true
  | _ => false

/-- Model of JS `note || defaultNote`: the default is used when `note` is absent or
falsy (empty string). -/
def effectiveNote (note : Option String) (s : OrderStatus) : String :=
  match note with
  | some n => if n = "" then "Status changed to " ++ s.label else n
  | none => "Status changed to " ++ s.label

/-- Method `updateStatus` of the order schema: unconditionally overwrites
`orderStatus` and appends a history entry, then saves. -/
def Order.updateStatus (o : Order) (newStatus : OrderStatus)
    (note : Option String) (updatedBy : Option String) (now : Nat) : Order :=
  { o with
    orderStatus := newStatus
    statusHistory := o.statusHistory ++
      [{ status := newStatus, timestamp := now,
         note := effectiveNote note newStatus, updatedBy := updatedBy }] }

/-- Method `markAsPaid` of the order schema: sets `paymentStatus = 'paid'`, merges the
receipt patch with a fresh `paidAt`, then auto-confirms via `updateStatus`
when the order is still `pending` (otherwise just saves). -/
def Order.markAsPaid (o : Order) (p : PaymentPatch) (now : Nat) : Order :=
  let o1 : Order :=
    { o with
      paymentStatus := .paid
      paymentDetails := o.paymentDetails.applyPatch p now }
  match o1.orderStatus with
  | .pending =>
      o1.updateStatus .confirmed (some "Payment received and order confirmed")
        none now
  | _ => o1

/-- Method `cancelOrder` of the order schema: throws unless `canBeCancelled`; on
success sets `orderStatus = 'cancelled'`, records the reason and appends a
history entry. -/
def Order.cancelOrder (o : Order) (reason : String)
    (cancelledBy : Option String) (now : Nat) : Except String Order :=
  if o.canBeCancelled then
    .ok { o with
          orderStatus := .cancelled
          cancelReason := some reason
          statusHistory := o.statusHistory ++
            [{ status := .cancelled, timestamp := now, note := reason,
               updatedBy := cancelledBy }] }
  else
    .error "Order cannot be cancelled at this stage"

/-- Product document (fields the core reads or writes). -/
structure Product where
  id : Nat
  name : String
  price : Int
  salePrice : Option Int
  stock : Int
  images : List String
deriving DecidableEq, Repr

/-- Method `updateStock` of the product schema: `this.stock -= quantity; if
(this.stock < 0) this.stock = 0;` then save — total, clamping at zero. -/
def Product.updateStock (p : Product) (quantity : Int) : Product :=
  let s := p.stock - quantity
  { p with stock := if s < 0 then 0 else s }

/-- Model of JS `product.salePrice || product.price`: a present, non-zero `salePrice`
wins; `0`, `null` and `undefined` fall through to `price`. -/
def Product.effectivePrice (p : Product) : Int :=
  match p.salePrice with
  | some s => if s = 0 then p.price else s
  | none => p.price

/-- The persisted product collection. -/
abbrev Store := List Product

/-- Lookup `Product.findById`. -/
def findProduct : Store → Nat → Option Product
  | [], _ => none
  | p :: rest, pid => if p.id = pid then some p else findProduct rest pid

/-- Mongoose `document.save()`: the document replaces the stored one with the
same id. -/
def saveProduct (store : Store) (q : Product) : Store :=
  store.map (fun p => if p.id = q.id then q else p)

/-- Atomic increment `Product.findByIdAndUpdate` with a stock `$inc` of `q`. -/
def incProductStock (store : Store) (pid : Nat) (q : Int) : Store :=
  store.map (fun p => if p.id = pid then { p with stock := p.stock + q } else p)

/-- Stock of a product as seen through `findById`. -/
def stockOf (store : Store) (pid : Nat) : Option Int :=
  (findProduct store pid).map Product.stock

/-- One entry of the `items` array of a create-order request body. -/
structure RequestItem where
  product : Nat
  quantity : Int
deriving DecidableEq, Repr

/-- The failure modes of `createOrder`, each carrying what the controller puts
into the `ErrorResponse` message. -/
inductive CreateOrderError
  | emptyOrder
  | productNotFound (pid : Nat)
  | insufficientStock (name : String)
deriving DecidableEq, Repr

/-- The per-item loop of `createOrder`: look the product up, compare requested
quantity against stock, snapshot name/price/image, accumulate the subtotal and
persist the stock decrement via `updateStock` — returning early on the first
failing item.  The store is returned in both outcomes because every
`updateStock` call has already saved before a later item can fail. -/
def processItems : Store → List RequestItem → List OrderItem → Int →
    Store × Except CreateOrderError (List OrderItem × Int)
  | store, [], acc, sub => (store, .ok (acc, sub))
  | store, item :: rest, acc, sub =>
    match findProduct store item.product with
    | none => (store, .error (.productNotFound item.product))
    | some p =>
      if p.stock < item.quantity then
        (store, .error (.insufficientStock p.name))
      else
        let price := p.effectivePrice
        processItems (saveProduct store (p.updateStock item.quantity)) rest
          (acc ++ [{ product := p.id, name := p.name, price := price,
                     quantity := item.quantity, image := p.images.headD "" }])
          (sub + price * item.quantity)

/-- Controller `createOrder` of the order controller, composed with the order
schema's pre-save hooks: validates non-emptiness, runs the item loop, computes
`total = subtotal + deliveryFee` and persists the order with initial status
`pending` and the initial history entry.  `deliveryFee` stands for the value
`calculateDeliveryFee(customer.city)` returned; `oid`/`orderNumber` for the
system-assigned identifiers. -/
def createOrder (store : Store) (userId : String)
    (reqItems : List RequestItem) (deliveryFee : Int) (paymentMethod : String)
    (notes : Option String) (oid : Nat) (orderNumber : String) (now : Nat) :
    Store × Except CreateOrderError Order :=
  if reqItems.isEmpty then (store, .error .emptyOrder)
  else
    match processItems store reqItems [] 0 with
    | (store1, .error e) => (store1, .error e)
    | (store1, .ok (orderItems, subtotal)) =>
      (store1, .ok
        { id := oid
          orderNumber := orderNumber
          user := userId
          items := orderItems
          subtotal := subtotal
          deliveryFee := deliveryFee
          total := subtotal + deliveryFee
          paymentMethod := paymentMethod
          paymentStatus := .pending
          paymentDetails :=
            { mpesaReceiptNumber := none, transactionId := none,
              phoneNumber := none, paidAt := none, failureReason := none }
          orderStatus := .pending
          statusHistory :=
            [{ status := .pending, timestamp := now, note := "Order created",
               updatedBy := none }]
          cancelReason := none
          notes := notes })

/-- An error value with message and status code as raised by the controllers and
services. -/
structure ErrorResponse where
  message : String
  statusCode : Nat
deriving DecidableEq, Repr

/-- Controller `updateOrderStatus` of the order controller: requires a status in
the body, requires the order to exist, then calls the schema method
unconditionally. -/
def updateOrderStatus (orderOpt : Option Order) (status : Option OrderStatus)
    (note : Option String) (userId : String) (now : Nat) :
    Except ErrorResponse Order :=
  match status with
  | none => .error { message := "Status is required", statusCode := 400 }
  | some s =>
    match orderOpt with
    | none => .error { message := "Order not found", statusCode := 404 }
    | some o => .ok (o.updateStatus s note (some userId) now)

/-- Model of JS `reason || 'Cancelled by customer'` in the cancel controller. -/
def effectiveReason (reason : Option String) : String :=
  match reason with
  | some r => if r = "" then "Cancelled by customer" else r
  | none => "Cancelled by customer"

/-- The restore-stock loop of the cancel controller: one `$inc` per line item,
in item order. -/
def restoreStock : Store → List OrderItem → Store
  | store, [] => store
  | store, i :: rest => restoreStock (incProductStock store i.product i.quantity) rest

/-- Controller `cancelOrder` of the order controller: ownership check, the schema
method's guard, then — only after a successful cancel — one stock `$inc` per
line item.  The product store is returned untouched on every failure path. -/
def cancelOrderController (store : Store) (orderOpt : Option Order)
    (reason : Option String) (userId : String) (userRole : String)
    (now : Nat) : Except ErrorResponse Order × Store :=
  match orderOpt with
  | none => (.error { message := "Order not found", statusCode := 404 }, store)
  | some o =>
    if o.user ≠ userId ∧ userRole ≠ "admin" then
      (.error { message := "Not authorized to cancel this order",
                statusCode := 403 }, store)
    else
      match o.cancelOrder (effectiveReason reason) (some userId) now with
      | .error m => (.error { message := m, statusCode := 400 }, store)
      | .ok o1 => (.ok o1, restoreStock store o1.items)

/-- Characters removed by the strip step: whitespace,
hyphens and plus signs. -/
def isStrippedChar (c : Char) : Bool :=
  c = ' ' || c = '\t' || c = '\n' || c = '\r' || c = '\x0b' || c = '\x0c' ||
  c = '-' || c = '+'

/-- The strip step of `formatPhoneNumber`. -/
def cleanPhone (s : List Char) : List Char :=
  s.filter (fun c => !(isStrippedChar c))

/-- The leading-zero step: a leading `0` is replaced by `254`. -/
def withCountryCode : List Char → List Char
  | '0' :: rest => '2' :: '5' :: '4' :: rest
  | s => s

/-- Test for the `254` country-code at the head of the cleaned number. -/
def hasCode254 : List Char → Bool
  | '2' :: '5' :: '4' :: _ => true
  | _ => false

/-- The full normalization pipeline of `formatPhoneNumber` before the length
check: strip, leading-zero replacement, then prepend `254` when absent. -/
def normalizePhone (phone : List Char) : List Char :=
  let c := withCountryCode (cleanPhone phone)
  if hasCode254 c then c else '2' :: '5' :: '4' :: c

/-- Function `formatPhoneNumber` of the M-Pesa service: normalizes and then throws
`'Invalid phone number format'` unless the result has length 12. -/
def formatPhoneNumber (phone : List Char) : Except String (List Char) :=
  let c := normalizePhone phone
  if c.length ≠ 12 then .error "Invalid phone number format" else .ok c

/-- An axios call that threw: either an HTTP error response carrying gateway
data (`error.response.data.errorMessage` / `.ResponseDescription`) or a pure
transport/timeout failure where only `error.message` exists. -/
inductive AxiosFailure
  | httpData (errorMessage : Option String)
      (responseDescription : Option String) (message : String)
  | transport (message : String)
deriving DecidableEq, Repr

/-- Model of the JS string fallback `a || b`: `b` when `a` is absent or empty. -/
def orElseStr (a : Option String) (b : String) : String :=
  match a with
  | some s => if s = "" then b else s
  | none => b

/-- The catch-block fallback chain over `errorMessage`,
error.response?.data?.ResponseDescription || error.message`. -/
def AxiosFailure.surfacedMessage : AxiosFailure → String
  | .httpData em rd m => orElseStr em (orElseStr rd m)
  | .transport m => m

/-- Function `generateAccessToken`: returns the token from a 2xx OAuth response and
converts every axios failure into `ErrorResponse('Failed to generate M-Pesa
access token', 500)`. -/
def generateAccessToken (resp : Except AxiosFailure String) :
    Except ErrorResponse String :=
  match resp with
  | .ok t => .ok t
  | .error _ =>
    .error { message := "Failed to generate M-Pesa access token",
             statusCode := 500 }

/-- The value `initiateSTKPush` resolves with on success. -/
structure StkOk where
  message : String
  checkoutRequestId : String
  merchantRequestId : String
  customerMessage : String
deriving DecidableEq, Repr

/-- A 2xx STK-push gateway response body (fields the service reads). -/
structure PushData where
  responseCode : String
  responseDescription : Option String
  checkoutRequestID : String
  merchantRequestID : String
  customerMessage : String
deriving DecidableEq, Repr

/-- Outcome of the `axios.post` to the STK-push endpoint. -/
inductive PushOutcome
  | resp (d : PushData)
  | fail (f : AxiosFailure)
deriving DecidableEq, Repr

/-- The body of the try block of `initiateSTKPush`: input checks, token
acquisition, phone formatting, the push call, and the sentinel test
`ResponseCode === '0'`.  Every throw is reported as the message string the
surrounding catch block would compute from it. -/
def initiateSTKPushCore (phone : List Char) (amount : Int)
    (accountReference : String) (token : Except ErrorResponse String)
    (push : PushOutcome) : Except String StkOk :=
  if phone = [] ∨ amount = 0 ∨ accountReference = "" then
    .error "Phone, amount, and account reference are required"
  else if amount < 1 then
    .error "Amount must be at least 1 KES"
  else
    match token with
    | .error e => .error e.message
    | .ok _ =>
      match formatPhoneNumber phone with
      | .error m => .error m
      | .ok _ =>
        match push with
        | .resp d =>
          if d.responseCode = "0" then
            .ok { message := "STK Push sent successfully",
                  checkoutRequestId := d.checkoutRequestID,
                  merchantRequestId := d.merchantRequestID,
                  customerMessage := d.customerMessage }
          else
            .error (orElseStr d.responseDescription "STK Push failed")
        | .fail f => .error f.surfacedMessage

/-- Function `initiateSTKPush` of the M-Pesa service: the try body plus its catch
block, which re-throws every failure — business or transport alike — as
`ErrorResponse('M-Pesa payment failed: ' + errorMessage, 400)`. -/
def initiateSTKPush (phone : List Char) (amount : Int)
    (accountReference : String) (token : Except ErrorResponse String)
    (push : PushOutcome) : Except ErrorResponse StkOk :=
  match initiateSTKPushCore phone amount accountReference token push with
  | .ok r => .ok r
  | .error m =>
    .error { message := "M-Pesa payment failed: " ++ m, statusCode := 400 }

/-- Controller `initiatePayment` of the payment controller: required-field check,
order lookup, ownership, already-paid and amount-tolerance guards, then the
service call; on gateway success it spreads the new `phoneNumber` and
`transactionId` over the existing `paymentDetails` and saves.  `stk` is the
settled result of the `initiateSTKPush` call. -/
def initiatePayment (phone : String) (amount : Int) (orderId : String)
    (orderOpt : Option Order) (userId : String)
    (stk : Except ErrorResponse StkOk) :
    Except ErrorResponse (Order × StkOk) :=
  if phone = "" ∨ amount = 0 ∨ orderId = "" then
    .error { message := "Phone, amount, and order ID are required",
             statusCode := 400 }
  else
    match orderOpt with
    | none => .error { message := "Order not found", statusCode := 404 }
    | some o =>
      if o.user ≠ userId then
        .error { message := "Not authorized", statusCode := 403 }
      else if o.paymentStatus = .paid then
        .error { message := "Order is already paid", statusCode := 400 }
      else if 1 < |amount - o.total| then
        .error { message := "Payment amount does not match order total",
                 statusCode := 400 }
      else
        match stk with
        | .error e => .error e
        | .ok r =>
          .ok ({ o with
                 paymentDetails :=
                   { o.paymentDetails with
                     phoneNumber := some phone,
                     transactionId := some r.checkoutRequestId } }, r)

/-- One `CallbackMetadata.Item` entry. -/
structure CallbackItem where
  name : String
  value : Option String
deriving DecidableEq, Repr

/-- The `stkCallback` object of a webhook body. -/
structure StkCallback where
  merchantRequestID : String
  checkoutRequestID : String
  resultCode : Int
  resultDesc : String
  callbackMetadata : Option (List CallbackItem)
deriving DecidableEq, Repr

/-- A webhook request body: `Body` or `Body.stkCallback` may be absent, in
which case destructuring inside `processCallback` throws. -/
inductive CallbackData
  | missingBody
  | missingStkCallback
  | valid (cb : StkCallback)
deriving DecidableEq, Repr

/-- The object `processCallback` returns. -/
structure CallbackResult where
  merchantRequestId : String
  checkoutRequestId : String
  resultCode : Int
  resultDesc : String
  success : Bool
  amount : Option String
  mpesaReceiptNumber : Option String
  transactionDate : Option String
  phoneNumber : Option String
deriving DecidableEq, Repr

/-- Lookup of a named metadata item's value, absent when missing. -/
def findItemValue : List CallbackItem → String → Option String
  | [], _ => none
  | i :: rest, n => if i.name = n then i.value else findItemValue rest n

/-- Function `processCallback` of the M-Pesa service: extracts the correlation fields;
on `ResultCode === 0` it additionally reads the metadata items (throwing —
hence `ErrorResponse(..., 500)` — when `CallbackMetadata` is absent); any
throw is re-raised as `'Failed to process M-Pesa callback'`. -/
def processCallback (d : CallbackData) : Except ErrorResponse CallbackResult :=
  match d with
  | .missingBody =>
    .error { message := "Failed to process M-Pesa callback", statusCode := 500 }
  | .missingStkCallback =>
    .error { message := "Failed to process M-Pesa callback", statusCode := 500 }
  | .valid cb =>
    if cb.resultCode = 0 then
      match cb.callbackMetadata with
      | none =>
        .error { message := "Failed to process M-Pesa callback",
                 statusCode := 500 }
      | some items =>
        .ok { merchantRequestId := cb.merchantRequestID
              checkoutRequestId := cb.checkoutRequestID
              resultCode := cb.resultCode
              resultDesc := cb.resultDesc
              success := true
              amount := findItemValue items "Amount"
              mpesaReceiptNumber := findItemValue items "MpesaReceiptNumber"
              transactionDate := findItemValue items "TransactionDate"
              phoneNumber := findItemValue items "PhoneNumber" }
    else
      .ok { merchantRequestId := cb.merchantRequestID
            checkoutRequestId := cb.checkoutRequestID
            resultCode := cb.resultCode
            resultDesc := cb.resultDesc
            success := false
            amount := none
            mpesaReceiptNumber := none
            transactionDate := none
            phoneNumber := none }

/-- The JSON acknowledgment the webhook handler sends. -/
structure AckResponse where
  httpStatus : Nat
  resultCode : Int
  resultDesc : String
deriving DecidableEq, Repr

/-- The mandatory acknowledgment body. -/
def acceptedAck : AckResponse :=
  { httpStatus := 200, resultCode := 0, resultDesc := "Accepted" }

/-- The persisted order collection. -/
abbrev OrderStore := List Order

/-- Lookup of an order by its recorded `paymentDetails.transactionId`. -/
def findOrderByTransactionId : OrderStore → String → Option Order
  | [], _ => none
  | o :: rest, cid =>
    if o.paymentDetails.transactionId = some cid then some o
    else findOrderByTransactionId rest cid

/-- Mongoose `order.save()`: replace the stored order with the same id. -/
def saveOrder (store : OrderStore) (o : Order) : OrderStore :=
  store.map (fun x => if x.id = o.id then o else x)

/-- Controller `mpesaCallback` of the payment controller: process the payload,
look the order up by `transactionId`, mark it paid or record the failure —
and answer `200 {ResultCode: 0, ResultDesc: 'Accepted'}` on every path,
including processing errors and unmatched correlation ids. -/
def mpesaCallback (store : OrderStore) (d : CallbackData) (now : Nat) :
    AckResponse × OrderStore :=
  match processCallback d with
  | .error _ => (acceptedAck, store)
  | .ok r =>
    match findOrderByTransactionId store r.checkoutRequestId with
    | none => (acceptedAck, store)
    | some o =>
      if r.success then
        (acceptedAck, saveOrder store (o.markAsPaid
          { mpesaReceiptNumber := r.mpesaReceiptNumber,
            transactionId := some r.checkoutRequestId,
            phoneNumber := r.phoneNumber } now))
      else
        (acceptedAck, saveOrder store
          { o with
            paymentStatus := .failed
            paymentDetails :=
              { o.paymentDetails with failureReason := some r.resultDesc } })

/-- The line-item subtotal sum over price times quantity. -/
def sumItems : List OrderItem → Int
  | [] => 0
  | i :: rest => i.price * i.quantity + sumItems rest

/-- Total quantity the items of one order carry for a given product id. -/
def totalQty : List OrderItem → Nat → Int
  | [], _ => 0
  | i :: rest, pid =>
    (if i.product = pid then i.quantity else 0) + totalQty rest pid

/-- Whether one request item would fail the availability check of the
create-order loop against a given store: product missing, or requested
quantity above stock. -/
def itemFailsB (store : Store) (r : RequestItem) : Bool :=
  match findProduct store r.product with
  | none => true
  | some p => decide (p.stock < r.quantity)

/-- The error the create-order loop reports for a failing item. -/
def failureOf (store : Store) (r : RequestItem) : CreateOrderError :=
  match findProduct store r.product with
  | none => .productNotFound r.product
  | some p => .insufficientStock p.name

/-- Whether every item of a request list clears the availability check of the
create-order loop when processed in order, each item's saved stock decrement
visible to the next item — the shape of the successful prefix that precedes
the first failing item. -/
def prefixSucceeds : Store → List RequestItem → Bool
  | _, [] => true
  | store, r :: rest =>
    match findProduct store r.product with
    | none => false
    | some p =>
      if p.stock < r.quantity then false
      else prefixSucceeds (saveProduct store (p.updateStock r.quantity)) rest

/-- The store left behind by the create-order loop after processing a request
list: each found item's stock decrement saved in order. -/
def applyDecrements : Store → List RequestItem → Store
  | store, [] => store
  | store, r :: rest =>
    match findProduct store r.product with
    | none => store
    | some p =>
      applyDecrements (saveProduct store (p.updateStock r.quantity)) rest

/-- Total quantity a request list asks of a given product id. -/
def totalQtyReq : List RequestItem → Nat → Int
  | [], _ => 0
  | r :: rest, pid =>
    (if r.product = pid then r.quantity else 0) + totalQtyReq rest pid

/-- Concrete catalog fixture: a product without sale price and stock 5. -/
def sofaA : Product :=
  { id := 1, name := "Sofa A", price := 100, salePrice := none, stock := 5,
    images := ["a.png"] }

/-- Concrete catalog fixture: a product with sale price 40 and stock 0. -/
def sofaB : Product :=
  { id := 2, name := "Sofa B", price := 50, salePrice := some 40, stock := 0,
    images := [] }

/-- Concrete two-product store fixture. -/
def demoStore : Store := [sofaA, sofaB]

/-- A fresh `paymentDetails` sub-document. -/
def emptyDetails : PaymentDetails :=
  { mpesaReceiptNumber := none, transactionId := none, phoneNumber := none,
    paidAt := none, failureReason := none }

/-- Concrete pending order fixture with two line items of quantities 1 and 3. -/
def demoPending : Order :=
  { id := 9, orderNumber := "ORD-9", user := "u1",
    items := [{ product := 1, name := "Sofa A", price := 100, quantity := 1,
                image := "a.png" },
              { product := 2, name := "Sofa B", price := 40, quantity := 3,
                image := "" }],
    subtotal := 220, deliveryFee := 10, total := 230, paymentMethod := "mpesa",
    paymentStatus := .pending, paymentDetails := emptyDetails,
    orderStatus := .pending,
    statusHistory := [{ status := .pending, timestamp := 0,
                        note := "Order created", updatedBy := none }],
    cancelReason := none, notes := none }

/-- The pending fixture after an administrator cancelled it. -/
def demoCancelled : Order := { demoPending with orderStatus := .cancelled }

/-- The pending fixture after shipping. -/
def demoShipped : Order := { demoPending with orderStatus := .shipped }

/-- The pending fixture with an outstanding, non-terminal payment attempt:
`transactionId` is recorded and `paymentStatus` is still `pending`. -/
def demoOutstanding : Order :=
  { demoPending with
    paymentDetails := { emptyDetails with transactionId := some "CK_OLD" } }

/-- Concrete receipt patch fixture. -/
def demoPatch : PaymentPatch :=
  { mpesaReceiptNumber := some "RC123", transactionId := some "CK1",
    phoneNumber := some "254712345678" }

/-- Concrete successful STK-push service result fixture. -/
def demoStk : StkOk :=
  { message := "STK Push sent successfully", checkoutRequestId := "CK_NEW",
    merchantRequestId := "MR_1", customerMessage := "ok" }

instance {ε α : Type} [DecidableEq ε] [DecidableEq α] :
    DecidableEq (Except ε α) := fun a b =>
  match a, b with
  | .error e1, .error e2 =>
    if h : e1 = e2 then isTrue (congrArg Except.error h)
    else isFalse (fun hc => h (Except.error.inj hc))
  | .error _, .ok _ => isFalse (fun hc => Except.noConfusion hc)
  | .ok _, .error _ => isFalse (fun hc => Except.noConfusion hc)
  | .ok a1, .ok a2 =>
    if h : a1 = a2 then isTrue (congrArg Except.ok h)
    else isFalse (fun hc => h (Except.ok.inj hc))

/-- The message the STK-push try block would report, `''` when it succeeds. -/
def coreErrorMsg (phone : List Char) (amount : Int) (accountReference : String)
    (token : Except ErrorResponse String) (push : PushOutcome) : String :=
  match initiateSTKPushCore phone amount accountReference token push with
  | .ok _ => ""
  | .error m => m

/-- The store after a successful one-item order creation against `demoStore`. -/
def wStore1 : Store := [{ sofaA with stock := 3 }, sofaB]

/-- The order produced by creating a one-item order (2 units of `sofaA`)
against `demoStore`. -/
def wOrder : Order :=
  { id := 7, orderNumber := "ORD-7", user := "u1",
    items := [{ product := 1, name := "Sofa A", price := 100, quantity := 2,
                image := "a.png" }],
    subtotal := 200, deliveryFee := 10, total := 210, paymentMethod := "mpesa",
    paymentStatus := .pending,
    paymentDetails := { mpesaReceiptNumber := none, transactionId := none,
                        phoneNumber := none, paidAt := none,
                        failureReason := none },
    orderStatus := .pending,
    statusHistory := [{ status := .pending, timestamp := 0,
                        note := "Order created", updatedBy := none }],
    cancelReason := none, notes := none }

/-- Fixture `wOrder` after a successful cancellation at time 2. -/
def wCancelled : Order :=
  { wOrder with
    orderStatus := .cancelled
    cancelReason := some "changed my mind"
    statusHistory := wOrder.statusHistory ++
      [{ status := .cancelled, timestamp := 2, note := "changed my mind",
         updatedBy := none }] }

/-- A webhook payload whose correlation id matches no stored order. -/
def wCbData : CallbackData :=
  .valid { merchantRequestID := "MR_9", checkoutRequestID := "CK_UNKNOWN",
           resultCode := 1, resultDesc := "Request cancelled by user",
           callbackMetadata := none }

/-- What `processCallback` returns for `wCbData`. -/
def wCbResult : CallbackResult :=
  { merchantRequestId := "MR_9", checkoutRequestId := "CK_UNKNOWN",
    resultCode := 1, resultDesc := "Request cancelled by user",
    success := false, amount := none, mpesaReceiptNumber := none,
    transactionDate := none, phoneNumber := none }

lemma sumItems_append (l1 l2 : List OrderItem) :
    sumItems (l1 ++ l2) = sumItems l1 + sumItems l2 := by
  induction l1 with
  | nil => simp [sumItems]
  | cons i rest ih => simp [sumItems, ih]; ring

lemma updateStock_id (p : Product) (q : Int) : (p.updateStock q).id = p.id := rfl

lemma findProduct_map (f : Product → Product) (hid : ∀ p, (f p).id = p.id)
    (store : Store) (pid : Nat) :
    findProduct (store.map f) pid = (findProduct store pid).map f := by
  induction store with
  | nil => rfl
  | cons p rest ih =>
    simp only [List.map_cons, findProduct, hid]
    by_cases hp : p.id = pid
    · rw [if_pos hp, if_pos hp]; rfl
    · rw [if_neg hp, if_neg hp]; exact ih

lemma findProduct_id (store : Store) (pid : Nat) (p : Product)
    (h : findProduct store pid = some p) : p.id = pid := by
  induction store with
  | nil => exact absurd h (by simp [findProduct])
  | cons hd rest ih =>
    rw [findProduct] at h
    by_cases hh : hd.id = pid
    · rw [if_pos hh] at h
      injection h with h
      rw [← h]; exact hh
    · rw [if_neg hh] at h
      exact ih h

lemma findProduct_saveProduct (store : Store) (q : Product) (pid : Nat) :
    findProduct (saveProduct store q) pid =
      (findProduct store pid).map (fun p => if p.id = q.id then q else p) := by
  unfold saveProduct
  exact findProduct_map _ (fun p => by by_cases h : p.id = q.id <;> simp [h]) store pid

lemma stockOf_incProductStock (store : Store) (pid' : Nat) (q : Int)
    (pid : Nat) :
    stockOf (incProductStock store pid' q) pid =
      if pid = pid' then (stockOf store pid).map (· + q)
      else stockOf store pid := by
  unfold stockOf incProductStock
  rw [findProduct_map _ (fun p => by by_cases h : p.id = pid' <;> simp [h])]
  cases hf : findProduct store pid with
  | none => simp
  | some p =>
    have hid := findProduct_id store pid p hf
    by_cases hp : pid = pid'
    · simp [hid, hp]
    · simp [hid, hp]

lemma stockOf_restoreStock (items : List OrderItem) (store : Store)
    (pid : Nat) :
    stockOf (restoreStock store items) pid =
      (stockOf store pid).map (· + totalQty items pid) := by
  induction items generalizing store with
  | nil =>
    cases h : stockOf store pid <;> simp [restoreStock, totalQty, h]
  | cons i rest ih =>
    rw [restoreStock, ih, stockOf_incProductStock]
    by_cases hp : pid = i.product
    · cases h : stockOf store pid
      · simp [totalQty, hp, h]
      · simp [totalQty, hp, h]
        ring
    · have : ¬ i.product = pid := fun hc => hp hc.symm
      cases h : stockOf store pid <;> simp [totalQty, hp, this, h]

lemma processItems_ok_subtotal :
    ∀ (items : List RequestItem) (store : Store) (acc : List OrderItem)
      (sub : Int) (store1 : Store) (acc1 : List OrderItem) (sub1 : Int),
      processItems store items acc sub = (store1, .ok (acc1, sub1)) →
      sub1 + sumItems acc = sub + sumItems acc1
  | [], store, acc, sub, store1, acc1, sub1, h => by
    simp [processItems] at h
    obtain ⟨-, h2, h3⟩ := h
    rw [h2, h3]
  | item :: rest, store, acc, sub, store1, acc1, sub1, h => by
    cases hf : findProduct store item.product with
    | none => simp [processItems, hf] at h
    | some p =>
      by_cases hq : p.stock < item.quantity
      · simp [processItems, hf, hq] at h
      · simp only [processItems, hf, if_neg hq] at h
        have ih := processItems_ok_subtotal rest _ _ _ _ _ _ h
        rw [sumItems_append] at ih
        simp only [sumItems] at ih
        linarith

lemma processItems_fail_retains :
    ∀ (pre : List RequestItem) (store : Store) (rbad : RequestItem)
      (rest : List RequestItem) (acc : List OrderItem) (sub : Int),
      prefixSucceeds store pre = true →
      itemFailsB (applyDecrements store pre) rbad = true →
      processItems store (pre ++ rbad :: rest) acc sub
        = (applyDecrements store pre,
           .error (failureOf (applyDecrements store pre) rbad))
  | [], store, rbad, rest, acc, sub, _, hbad => by
    cases hf : findProduct store rbad.product with
    | none => simp [processItems, applyDecrements, failureOf, hf]
    | some p =>
      have hq : p.stock < rbad.quantity := by
        unfold itemFailsB at hbad
        simp only [applyDecrements] at hbad
        rw [hf] at hbad
        exact of_decide_eq_true hbad
      simp [processItems, applyDecrements, failureOf, hf, hq]
  | r :: pre, store, rbad, rest, acc, sub, hpre, hbad => by
    cases hf : findProduct store r.product with
    | none => simp [prefixSucceeds, hf] at hpre
    | some p =>
      by_cases hq : p.stock < r.quantity
      · simp [prefixSucceeds, hf, hq] at hpre
      · simp only [prefixSucceeds, hf, if_neg hq] at hpre
        simp only [applyDecrements, hf] at hbad ⊢
        simp only [List.cons_append, processItems, hf, if_neg hq]
        exact processItems_fail_retains pre _ rbad rest _ _ hpre hbad

lemma stockOf_saveDecrement (store : Store) (r : RequestItem) (p : Product)
    (hf : findProduct store r.product = some p)
    (hq : ¬ p.stock < r.quantity) (pid : Nat) :
    stockOf (saveProduct store (p.updateStock r.quantity)) pid
      = (stockOf store pid).map
          (· - (if r.product = pid then r.quantity else 0)) := by
  rw [stockOf, findProduct_saveProduct]
  by_cases hp : r.product = pid
  · subst hp
    rw [hf]
    rw [stockOf, hf]
    show some (Product.stock
        (if p.id = (p.updateStock r.quantity).id then p.updateStock r.quantity
         else p)) = some (p.stock - if r.product = r.product then r.quantity else 0)
    rw [updateStock_id, if_pos rfl, if_pos rfl]
    show some (if p.stock - r.quantity < 0 then 0 else p.stock - r.quantity) = _
    rw [if_neg (by omega)]
  · cases hg : findProduct store pid with
    | none => simp [stockOf, hg]
    | some x =>
      have hx : x.id ≠ (p.updateStock r.quantity).id := by
        rw [updateStock_id, findProduct_id store pid x hg,
            findProduct_id store r.product p hf]
        exact fun hcc => hp hcc.symm
      rw [stockOf, hg]
      show some (Product.stock
          (if x.id = (p.updateStock r.quantity).id then p.updateStock r.quantity
           else x)) = some (x.stock - if r.product = pid then r.quantity else 0)
      rw [if_neg hx, if_neg hp]
      simp

lemma stockOf_applyDecrements :
    ∀ (pre : List RequestItem) (store : Store),
      prefixSucceeds store pre = true →
      ∀ pid, stockOf (applyDecrements store pre) pid
        = (stockOf store pid).map (· - totalQtyReq pre pid)
  | [], store, _, pid => by
    cases h : stockOf store pid <;> simp [applyDecrements, totalQtyReq, h]
  | r :: pre, store, hpre, pid => by
    cases hf : findProduct store r.product with
    | none => simp [prefixSucceeds, hf] at hpre
    | some p =>
      by_cases hq : p.stock < r.quantity
      · simp [prefixSucceeds, hf, hq] at hpre
      · simp only [prefixSucceeds, hf, if_neg hq] at hpre
        simp only [applyDecrements, hf]
        rw [stockOf_applyDecrements pre _ hpre pid,
            stockOf_saveDecrement store r p hf hq pid]
        cases h : stockOf store pid with
        | none => simp
        | some v =>
          simp only [Option.map, Option.bind, totalQtyReq]
          show some (v - _ - _) = some (v - _)
          rw [sub_sub]

/-- C10: `Product.updateStock` never fails (it is a total operation) and
clamps at zero — the resulting stock is `max 0 (previous stock − q)`, hence
never negative, and no other field (in particular the id) changes; when `q`
exceeds the current stock the decrement is silently truncated to zero rather
than reported. -/
theorem updateStock_clamps (p : Product) (q : Int) :
    (p.updateStock q).stock = max 0 (p.stock - q) ∧
    0 ≤ (p.updateStock q).stock ∧
    (p.updateStock q).id = p.id ∧
    (p.updateStock q).name = p.name ∧
    (p.updateStock q).price = p.price ∧
    (p.updateStock q).salePrice = p.salePrice := by
  refine ⟨?_, ?_, rfl, rfl, rfl, rfl⟩
  · show (if p.stock - q < 0 then 0 else p.stock - q) = max 0 (p.stock - q)
    rcases lt_or_ge (p.stock - q) 0 with h | h
    · rw [if_pos h, max_eq_left (by omega)]
    · rw [if_neg (by omega), max_eq_right (by omega)]
  · show 0 ≤ if p.stock - q < 0 then 0 else p.stock - q
    rcases lt_or_ge (p.stock - q) 0 with h | h
    · rw [if_pos h]
    · rw [if_neg (by omega)]; omega

/-- C3 (counterexample): `updateStatus` does not reject transitions touching
`cancelled` — on a cancelled order a request for `pending` succeeds and
mutates the order, and on a pending order a request for `cancelled` succeeds
as well. -/
theorem updateStatus_cancelled_cex :
    demoCancelled.orderStatus = OrderStatus.cancelled ∧
    updateOrderStatus (some demoCancelled) (some .pending) none "a1" 9
      = .ok (demoCancelled.updateStatus .pending none (some "a1") 9) ∧
    (demoCancelled.updateStatus .pending none (some "a1") 9).orderStatus
      = OrderStatus.pending ∧
    (demoCancelled.updateStatus .pending none (some "a1") 9) ≠ demoCancelled ∧
    updateOrderStatus (some demoPending) (some .cancelled) none "a1" 9
      = .ok (demoPending.updateStatus .cancelled none (some "a1") 9) ∧
    (demoPending.updateStatus .cancelled none (some "a1") 9).orderStatus
      = OrderStatus.cancelled := by
  decide

/-- C3 (amended): the `updateStatus` path never rejects on the status value.
For every order and every requested status — including a cancelled source or
a cancelled target — the controller answers `.ok` and the schema method
unconditionally overwrites `orderStatus` and appends a history entry; its
only failures are a missing status (400) and a missing order (404). -/
theorem updateStatus_unconditional (o : Order) (s : OrderStatus)
    (note : Option String) (userId : String) (now : Nat) :
    updateOrderStatus (some o) (some s) note userId now
      = .ok (o.updateStatus s note (some userId) now) ∧
    (o.updateStatus s note (some userId) now).orderStatus = s ∧
    (o.updateStatus s note (some userId) now).statusHistory
      = o.statusHistory ++ [{ status := s, timestamp := now,
                              note := effectiveNote note s,
                              updatedBy := some userId }] ∧
    updateOrderStatus (some o) none note userId now
      = .error { message := "Status is required", statusCode := 400 } ∧
    updateOrderStatus none (some s) note userId now
      = .error { message := "Order not found", statusCode := 404 } :=
  ⟨rfl, rfl, rfl, rfl, rfl⟩

/-- C2 (counterexample): `markAsPaid` has no `paymentStatus == paid` guard —
repeating it with identical receipt data mutates the order again, overwriting
`paymentDetails.paidAt` with the repeat call's timestamp, so the repeat call
is not a no-op and a field of the order does change. -/
theorem markAsPaid_not_noop_cex :
    (demoPending.markAsPaid demoPatch 1).paymentStatus = PaymentStatus.paid ∧
    (demoPending.markAsPaid demoPatch 1).paymentDetails.paidAt = some 1 ∧
    ((demoPending.markAsPaid demoPatch 1).markAsPaid demoPatch 2).paymentDetails.paidAt
      = some 2 ∧
    ((demoPending.markAsPaid demoPatch 1).markAsPaid demoPatch 2)
      ≠ demoPending.markAsPaid demoPatch 1 := by
  decide

/-- C2 (amended): repeating `markAsPaid` with identical receipt data leaves
`statusHistory` unchanged (hence its length unchanged) and keeps
`paymentStatus = paid`, but it is not a guarded no-op: the repeat call equals
the first result with `paymentDetails.paidAt` overwritten by the repeat
call's timestamp, and no other field changed. -/
theorem markAsPaid_repeat (o : Order) (p : PaymentPatch) (t1 t2 : Nat) :
    ((o.markAsPaid p t1).markAsPaid p t2).statusHistory
      = (o.markAsPaid p t1).statusHistory ∧
    ((o.markAsPaid p t1).markAsPaid p t2).paymentStatus = PaymentStatus.paid ∧
    (o.markAsPaid p t1).markAsPaid p t2
      = { o.markAsPaid p t1 with
          paymentDetails :=
            { (o.markAsPaid p t1).paymentDetails with paidAt := some t2 } } := by
  obtain ⟨i, onum, u, its, sub, df, tot, pm, ps, pd, os, hist, cr, nts⟩ := o
  cases os <;> exact ⟨rfl, rfl, rfl⟩

/-- C4 (counterexample): initiating a push payment for an order whose prior
attempt is still outstanding (`transactionId` recorded, `paymentStatus` still
`pending`, no terminal outcome) does not fail — the controller proceeds and
overwrites the outstanding transaction id with the new checkout id. -/
theorem initiatePayment_no_outstanding_guard_cex :
    demoOutstanding.paymentDetails.transactionId = some "CK_OLD" ∧
    demoOutstanding.paymentStatus = PaymentStatus.pending ∧
    initiatePayment "0712345678" 230 "ord9" (some demoOutstanding) "u1"
        (.ok demoStk)
      = .ok ({ demoOutstanding with
               paymentDetails :=
                 { demoOutstanding.paymentDetails with
                   phoneNumber := some "0712345678",
                   transactionId := some "CK_NEW" } }, demoStk) := by
  decide

/-- C4 (amended): `initiatePayment` performs no outstanding-attempt check at
all.  Whenever the request fields are present, the caller owns the order, the
order is not already `paid` and the amount is within the rounding tolerance,
the push proceeds and — on gateway success — the previously recorded
`paymentDetails.transactionId` is overwritten (superseded) by the new
checkout id, whether or not a prior attempt was outstanding. -/
theorem initiatePayment_supersedes (o : Order) (phone : String) (amount : Int)
    (orderId userId : String) (r : StkOk)
    (hp : phone ≠ "") (ha : amount ≠ 0) (hoid : orderId ≠ "")
    (hu : o.user = userId) (hpaid : o.paymentStatus ≠ .paid)
    (ht : |amount - o.total| ≤ 1) :
    initiatePayment phone amount orderId (some o) userId (.ok r)
      = .ok ({ o with
               paymentDetails :=
                 { o.paymentDetails with
                   phoneNumber := some phone,
                   transactionId := some r.checkoutRequestId } }, r) := by
  rw [initiatePayment]
  rw [if_neg (by simp [hp, ha, hoid])]
  rw [if_neg (by simp [hu])]
  rw [if_neg hpaid]
  rw [if_neg (not_lt.mpr ht)]

/-- C4 (witness). -/
theorem initiatePayment_supersedes_witness :
    initiatePayment "0712345678" 230 "ord9" (some demoOutstanding) "u1"
        (.ok demoStk)
      = .ok ({ demoOutstanding with
               paymentDetails :=
                 { demoOutstanding.paymentDetails with
                   phoneNumber := some "0712345678",
                   transactionId := some demoStk.checkoutRequestId } },
             demoStk) :=
  initiatePayment_supersedes demoOutstanding "0712345678" 230 "ord9" "u1"
    demoStk (by decide) (by decide) (by decide) (by decide) (by decide)
    (by decide)

/-- C5 (counterexample): a pure transport/timeout failure of the push request
does not surface as a distinct 5xx gateway-unavailable error — it is wrapped
exactly like a gateway-reported business failure, as a 400
`M-Pesa payment failed: ...` error, so the caller cannot distinguish the two
classes by status. -/
theorem initiateSTKPush_transport_cex :
    initiateSTKPush ['0', '7', '1', '2', '3', '4', '5', '6', '7', '8'] 100
        "ORD-7" (generateAccessToken (.ok "tok"))
        (.fail (.transport "timeout of 30000ms exceeded"))
      = .error { message := "M-Pesa payment failed: timeout of 30000ms exceeded",
                 statusCode := 400 } ∧
    initiateSTKPush ['0', '7', '1', '2', '3', '4', '5', '6', '7', '8'] 100
        "ORD-7" (generateAccessToken (.ok "tok"))
        (.resp { responseCode := "1",
                 responseDescription :=
                   some "The balance is insufficient for the transaction",
                 checkoutRequestID := "c", merchantRequestID := "m",
                 customerMessage := "x" })
      = .error { message :=
                   "M-Pesa payment failed: The balance is insufficient for the transaction",
                 statusCode := 400 } ∧
    (400 : Nat) < 500 := by
  decide

/-- C5 (amended): payment initiation does not classify failures into distinct
status classes.  Every failing initiation — gateway-reported business failure
and transport/timeout failure alike — surfaces as one 400 error whose message
is `M-Pesa payment failed: ` followed by the underlying message; no 5xx
reaches the caller from initiation (the 500 `generateAccessToken` constructs
is re-wrapped to 400 inside `initiateSTKPush`). -/
theorem initiateSTKPush_failures_uniform_400 (phone : List Char) (amount : Int)
    (accountReference : String) (token : Except ErrorResponse String)
    (push : PushOutcome) (e : ErrorResponse)
    (h : initiateSTKPush phone amount accountReference token push = .error e) :
    e.statusCode = 400 ∧
    e = { message := "M-Pesa payment failed: "
                       ++ coreErrorMsg phone amount accountReference token push,
          statusCode := 400 } := by
  rw [initiateSTKPush] at h
  cases hc : initiateSTKPushCore phone amount accountReference token push with
  | ok r => rw [hc] at h; exact absurd h (by simp)
  | error m =>
    rw [hc] at h
    simp only [Except.error.injEq] at h
    rw [coreErrorMsg, hc]
    exact ⟨by rw [← h], h.symm⟩

/-- C5 (witness). -/
theorem initiateSTKPush_failures_uniform_400_witness :
    ErrorResponse.statusCode
        { message := "M-Pesa payment failed: timeout of 30000ms exceeded",
          statusCode := 400 } = 400 :=
  (initiateSTKPush_failures_uniform_400
    ['0', '7', '1', '2', '3', '4', '5', '6', '7', '8'] 100 "ORD-7"
    (generateAccessToken (.ok "tok"))
    (.fail (.transport "timeout of 30000ms exceeded"))
    { message := "M-Pesa payment failed: timeout of 30000ms exceeded",
      statusCode := 400 } (by decide)).1

/-- C8 (counterexample): the formatter validates only the length of the
normalized result, not that it consists of digits — an input of letters with
a leading `0` normalizes to a 12-character non-digit string and is accepted
instead of failing, so "the result must be exactly 12 digits or the operation
fails" does not hold for every input string. -/
theorem formatPhoneNumber_digits_cex :
    formatPhoneNumber ['0', 'a', 'b', 'c', 'd', 'e', 'f', 'g', 'h', 'i']
      = .ok ['2', '5', '4', 'a', 'b', 'c', 'd', 'e', 'f', 'g', 'h', 'i'] ∧
    (['2', '5', '4', 'a', 'b', 'c', 'd', 'e', 'f', 'g', 'h', 'i'].all
        Char.isDigit) = false := by
  decide

/-- C8 (amended): phone normalization strips whitespace, hyphens and plus
signs, replaces a leading `0` by `254`, prepends `254` when absent, and then
fails with the invalid-phone error exactly when the result does not have
length 12 (12 characters — digit-ness is not verified).  In particular
`0712345678` and `+254 712 345 678` normalize to `254712345678`, and
`712345678` gets `254` prepended, reaching length 12, so it is accepted. -/
theorem formatPhoneNumber_spec (s r : List Char) :
    (formatPhoneNumber s = .ok r → r = normalizePhone s ∧ r.length = 12) ∧
    (formatPhoneNumber s = .error "Invalid phone number format"
      ↔ (normalizePhone s).length ≠ 12) ∧
    formatPhoneNumber ['0', '7', '1', '2', '3', '4', '5', '6', '7', '8']
      = .ok ['2', '5', '4', '7', '1', '2', '3', '4', '5', '6', '7', '8'] ∧
    formatPhoneNumber
        ['+', '2', '5', '4', ' ', '7', '1', '2', ' ', '3', '4', '5', ' ',
         '6', '7', '8']
      = .ok ['2', '5', '4', '7', '1', '2', '3', '4', '5', '6', '7', '8'] ∧
    formatPhoneNumber ['7', '1', '2', '3', '4', '5', '6', '7', '8']
      = .ok ['2', '5', '4', '7', '1', '2', '3', '4', '5', '6', '7', '8'] := by
  refine ⟨?_, ?_, by decide, by decide, by decide⟩
  · intro h
    simp only [formatPhoneNumber] at h
    by_cases hl : (normalizePhone s).length ≠ 12
    · rw [if_pos hl] at h
      exact absurd h (by simp)
    · rw [if_neg hl] at h
      simp only [Except.ok.injEq] at h
      refine ⟨h.symm, ?_⟩
      rw [← h]
      exact not_ne_iff.mp hl
  · simp only [formatPhoneNumber]
    by_cases hl : (normalizePhone s).length ≠ 12
    · simp [hl]
    · simp [hl]

/-- C8 (witness). -/
theorem formatPhoneNumber_spec_witness :
    (['2', '5', '4', '7', '1', '2', '3', '4', '5', '6', '7', '8'] : List Char)
        = normalizePhone ['0', '7', '1', '2', '3', '4', '5', '6', '7', '8'] ∧
    (['2', '5', '4', '7', '1', '2', '3', '4', '5', '6', '7', '8']
        : List Char).length = 12 :=
  (formatPhoneNumber_spec ['0', '7', '1', '2', '3', '4', '5', '6', '7', '8']
    ['2', '5', '4', '7', '1', '2', '3', '4', '5', '6', '7', '8']).1 (by decide)

/-- C7: the webhook handler acknowledges every callback with HTTP 200 and
body `{ResultCode: 0, ResultDesc: 'Accepted'}` — including payloads whose
processing throws and payloads whose correlation id matches no order — and
in both of those cases no stored order is mutated. -/
theorem mpesaCallback_always_acks (store : OrderStore) (d : CallbackData)
    (now : Nat) :
    (mpesaCallback store d now).1 = acceptedAck ∧
    (∀ e, processCallback d = .error e →
      (mpesaCallback store d now).2 = store) ∧
    (∀ r, processCallback d = .ok r →
      findOrderByTransactionId store r.checkoutRequestId = none →
      (mpesaCallback store d now).2 = store) := by
  refine ⟨?_, ?_, ?_⟩
  · cases hp : processCallback d with
    | error e => simp [mpesaCallback, hp]
    | ok r =>
      cases hf : findOrderByTransactionId store r.checkoutRequestId with
      | none => simp [mpesaCallback, hp, hf]
      | some o =>
        by_cases hs : r.success = true
        · simp [mpesaCallback, hp, hf, hs]
        · simp [mpesaCallback, hp, hf, hs]
  · intro e he
    simp [mpesaCallback, he]
  · intro r hr hf
    simp [mpesaCallback, hr, hf]

/-- C7 (witness): a failure callback whose correlation id matches no stored
order is acknowledged and leaves the store unchanged, as does a payload with
a missing body. -/
theorem mpesaCallback_always_acks_witness :
    (mpesaCallback [demoOutstanding] wCbData 7).1 = acceptedAck ∧
    (mpesaCallback [demoOutstanding] wCbData 7).2 = [demoOutstanding] ∧
    (mpesaCallback [demoOutstanding] CallbackData.missingBody 7).2
      = [demoOutstanding] :=
  ⟨(mpesaCallback_always_acks [demoOutstanding] wCbData 7).1,
   (mpesaCallback_always_acks [demoOutstanding] wCbData 7).2.2 wCbResult
     (by decide) (by decide),
   (mpesaCallback_always_acks [demoOutstanding] CallbackData.missingBody 7).2.1
     { message := "Failed to process M-Pesa callback", statusCode := 500 }
     (by decide)⟩

/-- C6: for an owned order, cancellation fails with the blocking-state error
and performs no stock mutation unless `orderStatus` is `pending` or
`confirmed`; on success it sets `orderStatus = cancelled`, records the
reason, appends a history entry, and increments every product's stock by the
total quantity the order's line items carry for it — once, as part of the
same operation. -/
theorem cancelOrder_contract (store : Store) (o : Order)
    (reason : Option String) (userId userRole : String) (now : Nat)
    (hown : o.user = userId) :
    (o.canBeCancelled = false →
      cancelOrderController store (some o) reason userId userRole now
        = (.error { message := "Order cannot be cancelled at this stage",
                    statusCode := 400 }, store)) ∧
    (o.canBeCancelled = true →
      cancelOrderController store (some o) reason userId userRole now
        = (.ok { o with
                 orderStatus := .cancelled
                 cancelReason := some (effectiveReason reason)
                 statusHistory := o.statusHistory ++
                   [{ status := .cancelled, timestamp := now,
                      note := effectiveReason reason,
                      updatedBy := some userId }] },
           restoreStock store o.items) ∧
      ∀ pid, stockOf (restoreStock store o.items) pid
        = (stockOf store pid).map (· + totalQty o.items pid)) := by
  have hauth : ¬(o.user ≠ userId ∧ userRole ≠ "admin") := fun hcon => hcon.1 hown
  constructor
  · intro hno
    simp [cancelOrderController, hauth, Order.cancelOrder, hno]
  · intro hyes
    refine ⟨?_, fun pid => stockOf_restoreStock o.items store pid⟩
    simp [cancelOrderController, hauth, Order.cancelOrder, hyes]

/-- C6 (witness): cancelling the shipped fixture fails with the
blocking-state error and leaves the store unchanged; cancelling the pending
fixture with line quantities 1 and 3 returns exactly 1 and 3 units to the
respective products (stock 5 becomes 6, stock 0 becomes 3). -/
theorem cancelOrder_contract_witness :
    cancelOrderController demoStore (some demoShipped) none "u1" "customer" 3
      = (.error { message := "Order cannot be cancelled at this stage",
                  statusCode := 400 }, demoStore) ∧
    stockOf (cancelOrderController demoStore (some demoPending) none "u1"
        "customer" 3).2 1 = some 6 ∧
    stockOf (cancelOrderController demoStore (some demoPending) none "u1"
        "customer" 3).2 2 = some 3 := by
  have hfail :=
    (cancelOrder_contract demoStore demoShipped none "u1" "customer" 3 rfl).1
      (by decide)
  have hok :=
    (cancelOrder_contract demoStore demoPending none "u1" "customer" 3 rfl).2
      (by decide)
  refine ⟨hfail, ?_, ?_⟩
  · rw [hok.1]
    exact (hok.2 1).trans (by decide)
  · rw [hok.1]
    exact (hok.2 2).trans (by decide)

/-- C1 (counterexample): order creation is not all-or-nothing.  Requesting 2
units of `sofaA` (stock 5) and then 1 unit of `sofaB` (stock 0) fails naming
`Sofa B`, yet `sofaA`'s stock has been decremented to 3 and stays decremented
— the store returned by the failing operation differs from the initial one. -/
theorem createOrder_atomic_cex :
    (createOrder demoStore "u1"
        [{ product := 1, quantity := 2 }, { product := 2, quantity := 1 }]
        10 "mpesa" none 7 "ORD-7" 0).2
      = .error (.insufficientStock "Sofa B") ∧
    stockOf demoStore 1 = some 5 ∧
    stockOf (createOrder demoStore "u1"
        [{ product := 1, quantity := 2 }, { product := 2, quantity := 1 }]
        10 "mpesa" none 7 "ORD-7" 0).1 1 = some 3 ∧
    (createOrder demoStore "u1"
        [{ product := 1, quantity := 2 }, { product := 2, quantity := 1 }]
        10 "mpesa" none 7 "ORD-7" 0).1 ≠ demoStore := by
  decide

/-- C1 (amended): for every order-creation request in which any line item
fails availability — written as a successful prefix `pre`, the first failing
item `rbad` at an arbitrary position, and an arbitrary remainder `rest` —
the operation fails naming the offending product (or its id when missing),
but there is no compensating rollback: the returned store is exactly the
store with the prefix's decrements persisted, and every product is left
decremented by precisely the total quantity the prefix requested of it
(zero, i.e. untouched, for products of no earlier item). -/
theorem createOrder_no_rollback (store : Store) (pre : List RequestItem)
    (rbad : RequestItem) (rest : List RequestItem) (userId pm : String)
    (notes : Option String) (df : Int) (oid : Nat) (onum : String) (now : Nat)
    (hpre : prefixSucceeds store pre = true)
    (hbad : itemFailsB (applyDecrements store pre) rbad = true) :
    createOrder store userId (pre ++ rbad :: rest) df pm notes oid onum now
      = (applyDecrements store pre,
         .error (failureOf (applyDecrements store pre) rbad)) ∧
    ∀ pid, stockOf (applyDecrements store pre) pid
      = (stockOf store pid).map (· - totalQtyReq pre pid) := by
  have hstep := processItems_fail_retains pre store rbad rest [] 0 hpre hbad
  constructor
  · have hne : (pre ++ rbad :: rest).isEmpty = false := by
      cases pre <;> rfl
    simp [createOrder, hne, hstep]
  · exact stockOf_applyDecrements pre store hpre

/-- C1 (witness): the two-item instance — prefix of 2 units of product 1,
then 1 unit of out-of-stock product 2 — fails naming the offender while
product 1 stays decremented from 5 to 3. -/
theorem createOrder_no_rollback_witness :
    createOrder demoStore "u1"
        [{ product := 1, quantity := 2 }, { product := 2, quantity := 1 }]
        10 "mpesa" none 7 "ORD-7" 0
      = (applyDecrements demoStore [{ product := 1, quantity := 2 }],
         .error (failureOf
                  (applyDecrements demoStore [{ product := 1, quantity := 2 }])
                  { product := 2, quantity := 1 })) ∧
    stockOf (applyDecrements demoStore [{ product := 1, quantity := 2 }]) 1
      = some 3 := by
  have h := createOrder_no_rollback demoStore [{ product := 1, quantity := 2 }]
    { product := 2, quantity := 1 } [] "u1" "mpesa" none 10 7 "ORD-7" 0
    (by decide) (by decide)
  exact ⟨h.1, (h.2 1).trans (by decide)⟩

/-- C9: for every successfully created order, `subtotal` equals the sum over
items of price times quantity, `total = subtotal + deliveryFee`, and none of
the core's subsequent operations — `updateStatus`, `markAsPaid`, a
successful `cancelOrder` — changes `subtotal`, `deliveryFee` or `total`. -/
theorem order_totals_consistent (store : Store) (userId : String)
    (reqItems : List RequestItem) (df : Int) (pm : String)
    (notes : Option String) (oid : Nat) (onum : String) (now : Nat)
    (store1 : Store) (o : Order)
    (h : createOrder store userId reqItems df pm notes oid onum now
          = (store1, .ok o))
    (s : OrderStatus) (note uid : Option String) (t : Nat) (p : PaymentPatch)
    (r : String) (cuid : Option String) (t2 : Nat) (o1 : Order)
    (hc : o.cancelOrder r cuid t2 = .ok o1) :
    o.total = o.subtotal + o.deliveryFee ∧
    o.subtotal = sumItems o.items ∧
    o.deliveryFee = df ∧
    (o.updateStatus s note uid t).subtotal = o.subtotal ∧
    (o.updateStatus s note uid t).deliveryFee = o.deliveryFee ∧
    (o.updateStatus s note uid t).total = o.total ∧
    (o.markAsPaid p t).subtotal = o.subtotal ∧
    (o.markAsPaid p t).deliveryFee = o.deliveryFee ∧
    (o.markAsPaid p t).total = o.total ∧
    o1.subtotal = o.subtotal ∧
    o1.deliveryFee = o.deliveryFee ∧
    o1.total = o.total := by
  rw [createOrder] at h
  by_cases he : reqItems.isEmpty = true
  · rw [if_pos he] at h
    exact absurd h (by simp)
  · rw [if_neg he] at h
    cases hp : processItems store reqItems [] 0 with
    | mk st2 res =>
      rw [hp] at h
      cases res with
      | error e => exact absurd h (by simp)
      | ok pr =>
        obtain ⟨its, sub⟩ := pr
        simp only [Prod.mk.injEq, Except.ok.injEq] at h
        obtain ⟨hst, ho⟩ := h
        have hsub : sub = sumItems its := by
          have hh := processItems_ok_subtotal reqItems store [] 0 st2 its sub hp
          simpa [sumItems] using hh
        subst ho
        simp only [Order.cancelOrder, Order.canBeCancelled] at hc
        simp only [if_pos, Except.ok.injEq] at hc
        subst hc
        exact ⟨rfl, hsub, rfl, rfl, rfl, rfl, rfl, rfl, rfl, rfl, rfl, rfl⟩

/-- C9 (witness). -/
theorem order_totals_consistent_witness :
    wOrder.total = wOrder.subtotal + wOrder.deliveryFee ∧
    wOrder.subtotal = sumItems wOrder.items ∧
    wCancelled.total = wOrder.total := by
  have h := order_totals_consistent demoStore "u1" [{ product := 1, quantity := 2 }]
    10 "mpesa" none 7 "ORD-7" 0 wStore1 wOrder (by decide) .confirmed none none
    1 demoPatch "changed my mind" none 2 wCancelled (by decide)
  exact ⟨h.1, h.2.1, h.2.2.2.2.2.2.2.2.2.2.2⟩

end FurnitureHub
